import Mathlib

/-!
Shallow embedding of the feed parser in `src/rss_scrapper.py` (function
`rss_parser`).  XML input is modelled as an already-parsed element tree
(`XmlElem`); a `none` tree stands for input that the XML parser rejects.
Python exceptions (KeyError on a missing dict key, TypeError when
iterating `None` or when `str.join` meets a `None` element) are modelled
by `Option`: `none` means the call raises instead of returning.
JSON serialisation (`json.dumps`) is modelled by the structured value
that is serialised (`JsonData`), since every observable property of the
JSON output in this development concerns that structure.
-/

/-- A parsed XML element: tag, optional text content, direct children.
Models `xml.etree.ElementTree.Element` as the program uses it
(`elem.tag`, `elem.text`, iteration over direct children). -/
inductive XmlElem : Type where
  | mk : String → Option String → List XmlElem → XmlElem

def XmlElem.tag : XmlElem → String
  | .mk t _ _ => t

def XmlElem.text : XmlElem → Option String
  | .mk _ s _ => s

def XmlElem.children : XmlElem → List XmlElem
  | .mk _ _ c => c

/-- The channel dict built in lines 29 and 34-52.  Each recognised field is
`none` when the key is absent from the dict; `some v` when the key is
present with stored value `v` (itself an `Option String`, since
`elem.text` can be Python `None`). -/
structure ChannelRec where
  title : Option (Option String) := none
  link : Option (Option String) := none
  lastBuildDate : Option (Option String) := none
  pubDate : Option (Option String) := none
  language : Option (Option String) := none
  category : Option (List (Option String)) := none
  managingEditor : Option (Option String) := none
  description : Option (Option String) := none
  deriving DecidableEq

/-- One `item_dict` from lines 55-71, same presence convention. -/
structure ItemRec where
  title : Option (Option String) := none
  author : Option (Option String) := none
  pubDate : Option (Option String) := none
  link : Option (Option String) := none
  category : Option (List (Option String)) := none
  description : Option (Option String) := none
  deriving DecidableEq

/-- Models `elem.text.strip() if elem.text else None` (lines 48 and 68):
Python truthiness on the text, where `None` and the empty string are
falsy. -/
def stripOrNone : Option String → Option String
  | none => none
  | some s => if s = "" then none else some s.trim

/-- One iteration of the channel loop, lines 35-52. -/
def updateChannel (channel : ChannelRec) (elem : XmlElem) : ChannelRec :=
  if elem.tag = "title" then { channel with title := some elem.text }
  else if elem.tag = "link" then { channel with link := some elem.text }
  else if elem.tag = "lastBuildDate" then { channel with lastBuildDate := some elem.text }
  else if elem.tag = "pudDate" then { channel with pubDate := some elem.text }
  else if elem.tag = "language" then { channel with language := some elem.text }
  else if elem.tag = "category" then
    { channel with category := some ((channel.category.getD []) ++ [stripOrNone elem.text]) }
  else if elem.tag = "managingEditor" then { channel with managingEditor := some elem.text }
  else if elem.tag = "description" then { channel with description := some elem.text }
  else channel

/-- One iteration of the inner item loop, lines 57-70 (independent `if`s
in the source; at most one can fire since they test the same tag). -/
def updateItem (d0 : ItemRec) (el : XmlElem) : ItemRec :=
  let d1 := if el.tag = "title" then { d0 with title := some el.text } else d0
  let d2 := if el.tag = "author" then { d1 with author := some el.text } else d1
  let d3 := if el.tag = "pubDate" then { d2 with pubDate := some el.text } else d2
  let d4 := if el.tag = "link" then { d3 with link := some el.text } else d3
  let d5 := if el.tag = "category" then
      { d4 with category := some ((d4.category.getD []) ++ [stripOrNone el.text]) } else d4
  if el.tag = "description" then { d5 with description := some el.text } else d5

/-- `tree.find(t)`: first direct child with the given tag, or None. -/
def findChild (e : XmlElem) (t : String) : Option XmlElem :=
  e.children.find? (fun c => c.tag = t)

/-- Lines 34-52: `for elem in tree.find('channel'): ...`.  When
`find` returns None, iterating it raises TypeError, hence `none`. -/
def extractChannel (tree : XmlElem) : Option ChannelRec :=
  match findChild tree "channel" with
  | none => none
  | some ch => some (ch.children.foldl updateChannel {})

/-- Lines 54-71: `for itm in tree.findall('channel/item')`.  The path
matches every `item` child of every `channel` child, in document order. -/
def extractItems (tree : XmlElem) : List ItemRec :=
  ((tree.children.filter (fun c => c.tag = "channel")).flatMap
    (fun ch => ch.children.filter (fun el => el.tag = "item"))).map
    (fun itm => itm.children.foldl updateItem {})

/-- The Python slice `xs[:n]` for an arbitrary integer `n`. -/
def pySliceTo {α : Type} (xs : List α) (n : Int) : List α :=
  if 0 ≤ n then xs.take n.toNat else xs.take (xs.length - (-n).toNat)

/-- `item[:limit] if limit else item` (lines 91 and 108): the check is
Python truthiness of `limit`, so `None` and `0` both mean "no slice". -/
def selectItems {α : Type} (item : List α) (limit : Option Int) : List α :=
  match limit with
  | none => item
  | some l => if l = 0 then item else pySliceTo item l

/-- Python `str()` of a stored text-or-None value, as an f-string
interpolates it. -/
def pyStr : Option String → String
  | none => "None"
  | some s => s

/-- Python `repr` of a str-or-None element, as list stringification shows
it. -/
def pyReprElem : Option String → String
  | none => "None"
  | some s => "'" ++ s ++ "'"

/-- Python `str()` of a list of str-or-None values: `['a', None]`. -/
def pyReprList (xs : List (Option String)) : String :=
  "[" ++ String.intercalate ", " (xs.map pyReprElem) ++ "]"

/-- A conditional `output.append(f'Label: {value}')` line: present only
when the dict key is present. -/
def optLine (label : String) (v : Option (Option String)) : List String :=
  match v with
  | some t => [label ++ pyStr t]
  | none => []

/-- The `data` dict built in lines 74-91 and handed to `json.dumps`.
Keys appear in this fixed order in the source; `category`, when present,
holds the joined string.  `items` holds the selected item dicts
verbatim. -/
structure JsonData where
  title : Option (Option String)
  link : Option (Option String)
  lastBuildDate : Option (Option String)
  pubDate : Option (Option String)
  language : Option (Option String)
  category : Option String
  managingEditor : Option (Option String)
  description : Option (Option String)
  items : List ItemRec
  deriving DecidableEq

/-- Lines 74-91.  `''.join(channel["category"])` raises TypeError as soon
as the list holds a `None` element, so building `data` fails (`none`) in
that case. -/
def mkJsonData (channel : ChannelRec) (item : List ItemRec) (limit : Option Int) :
    Option JsonData :=
  (match channel.category with
   | none => some none
   | some cs => ((cs.mapM id).map String.join).map some).map
  (fun cat =>
    { title := channel.title, link := channel.link, lastBuildDate := channel.lastBuildDate,
      pubDate := channel.pubDate, language := channel.language, category := cat,
      managingEditor := channel.managingEditor, description := channel.description,
      items := selectItems item limit })

/-- `", ".join(xs)`: raises TypeError (hence `none`) when some element is
`None`. -/
def commaJoin (cs : List (Option String)) : Option String :=
  (cs.mapM id).map (String.intercalate ", ")

/-- Lines 109-122: the output block of one selected item.  A failure
(missing `title` key, or a `None` inside the category join) aborts the
whole render.  The description line (line 121) appends the stored value
itself, which may be Python `None`, hence lines are `Option String`. -/
def renderItemLines (itm : ItemRec) : Option (List (Option String)) :=
  itm.title.bind fun t =>
  ((match itm.category with
    | none => some []
    | some cs => (commaJoin cs).map fun s => ["Categories: " ++ s] :
      Option (List String))).map fun catLines =>
    [some " ", some ("Title: " ++ pyStr t)]
    ++ (optLine "Author: " itm.author).map some
    ++ (optLine "Published: " itm.pubDate).map some
    ++ (optLine "Link: " itm.link).map some
    ++ catLines.map some
    ++ [some " "]
    ++ (match itm.description with | some d => [d] | none => [])
    ++ [some " "]

/-- Lines 96-107: the conditional channel header lines after Feed/Link. -/
def channelOptLines (c : ChannelRec) : List String :=
  optLine "Last Build Date: " c.lastBuildDate
  ++ optLine "Publish Date: " c.pubDate
  ++ optLine "Language: " c.language
  ++ (match c.category with
      | some cs => ["Categories: " ++ pyReprList cs]
      | none => [])
  ++ optLine "Editor: " c.managingEditor
  ++ optLine "Description: " c.description

/-- Lines 94-122: text mode.  `channel["title"]` and `channel["link"]`
are unchecked dict accesses, so a missing key raises (hence `none`). -/
def renderText (c : ChannelRec) (items : List ItemRec) (limit : Option Int) :
    Option (List (Option String)) :=
  c.title.bind fun t =>
  c.link.bind fun l =>
  ((selectItems items limit).mapM renderItemLines).map fun itemLines =>
    [some ("Feed: " ++ pyStr t), some ("Link: " ++ pyStr l)]
    ++ (channelOptLines c).map some
    ++ itemLines.flatten

/-- The observable result of one call: either the `data` structure that
JSON mode serialises into its single output line, or the text-mode line
list. -/
inductive RssOutput : Type where
  | jsonOut : JsonData → RssOutput
  | textOut : List (Option String) → RssOutput
  deriving DecidableEq

/-- The whole of `rss_parser` (lines 12-124).  The first argument is the
result of `ElT.fromstring`: `none` when the XML is not well formed (the
parser raises before any extraction happens). -/
def rssParse (tree : Option XmlElem) (limit : Option Int) (json : Bool) :
    Option RssOutput :=
  tree.bind fun t =>
  (extractChannel t).bind fun channel =>
  let item := extractItems t
  if json then (mkJsonData channel item limit).map RssOutput.jsonOut
  else (renderText channel item limit).map RssOutput.textOut

/-!
Spec-side definitions for the extraction claims: a declarative
description of what the per-element loops compute, to be compared with
the folds above.
-/

/-- Later value wins when present; models repeated unconditional dict
assignment. -/
def ovr {α : Type} (old new : Option α) : Option α :=
  match new with
  | some v => some v
  | none => old

theorem ovr_none_right {α : Type} (o : Option α) : ovr o none = o := rfl

theorem ovr_none_left {α : Type} (o : Option α) : ovr none o = o := by
  cases o <;> rfl

theorem ovr_assoc {α : Type} (a b c : Option α) :
    ovr (ovr a b) c = ovr a (ovr b c) := by
  cases c <;> rfl

theorem getLast_cons_ovr {α : Type} (a : α) (l : List α) :
    (a :: l).getLast? = ovr (some a) l.getLast? := by
  induction l generalizing a with
  | nil => rfl
  | cons b m ih =>
    rw [List.getLast?_cons_cons, ih b]
    cases m.getLast? <;> rfl

/-- Spec: the text of the last same-tag direct child, `none` when the tag
never occurs. -/
def lastTagText (es : List XmlElem) (t : String) : Option (Option String) :=
  ((es.filter (fun e => e.tag = t)).map XmlElem.text).getLast?

/-- Spec: the trimmed-or-null texts of all category children, in document
order. -/
def catSeq (es : List XmlElem) : List (Option String) :=
  (es.filter (fun e => e.tag = "category")).map (fun e => stripOrNone e.text)

theorem lastTagText_nil (t : String) : lastTagText [] t = none := rfl

theorem lastTagText_cons (e : XmlElem) (es : List XmlElem) (t : String) :
    lastTagText (e :: es) t
      = ovr (if e.tag = t then some e.text else none) (lastTagText es t) := by
  unfold lastTagText
  by_cases h : e.tag = t
  · rw [List.filter_cons_of_pos (by simpa using h), List.map_cons, getLast_cons_ovr,
      if_pos h]
  · rw [List.filter_cons_of_neg (by simpa using h), if_neg h, ovr_none_left]

theorem catSeq_nil : catSeq [] = [] := rfl

theorem catSeq_cons (e : XmlElem) (es : List XmlElem) :
    catSeq (e :: es)
      = (if e.tag = "category" then [stripOrNone e.text] else []) ++ catSeq es := by
  unfold catSeq
  by_cases h : e.tag = "category"
  · rw [List.filter_cons_of_pos (by simpa using h), List.map_cons, if_pos h]
    rfl
  · rw [List.filter_cons_of_neg (by simpa using h), if_neg h]
    rfl

/-- The channel record the claim describes: last occurrence wins for
non-category fields, category accumulates in order, presence iff the tag
occurred. -/
def channelSpec (es : List XmlElem) : ChannelRec :=
  { title := lastTagText es "title", link := lastTagText es "link",
    lastBuildDate := lastTagText es "lastBuildDate",
    pubDate := lastTagText es "pudDate", language := lastTagText es "language",
    category := if catSeq es = [] then none else some (catSeq es),
    managingEditor := lastTagText es "managingEditor",
    description := lastTagText es "description" }

/-- The item record the claim describes, same rules over the item tag
set. -/
def itemSpec (es : List XmlElem) : ItemRec :=
  { title := lastTagText es "title", author := lastTagText es "author",
    pubDate := lastTagText es "pubDate", link := lastTagText es "link",
    category := if catSeq es = [] then none else some (catSeq es),
    description := lastTagText es "description" }

theorem updateChannel_title (c : ChannelRec) (e : XmlElem) :
    (updateChannel c e).title
      = ovr c.title (if e.tag = "title" then some e.text else none) := by
  unfold updateChannel
  split_ifs <;> simp_all [ovr]

theorem updateChannel_link (c : ChannelRec) (e : XmlElem) :
    (updateChannel c e).link
      = ovr c.link (if e.tag = "link" then some e.text else none) := by
  unfold updateChannel
  split_ifs <;> simp_all [ovr]

theorem updateChannel_lastBuildDate (c : ChannelRec) (e : XmlElem) :
    (updateChannel c e).lastBuildDate
      = ovr c.lastBuildDate (if e.tag = "lastBuildDate" then some e.text else none) := by
  unfold updateChannel
  split_ifs <;> simp_all [ovr]

theorem updateChannel_pubDate (c : ChannelRec) (e : XmlElem) :
    (updateChannel c e).pubDate
      = ovr c.pubDate (if e.tag = "pudDate" then some e.text else none) := by
  unfold updateChannel
  split_ifs <;> simp_all [ovr]

theorem updateChannel_language (c : ChannelRec) (e : XmlElem) :
    (updateChannel c e).language
      = ovr c.language (if e.tag = "language" then some e.text else none) := by
  unfold updateChannel
  split_ifs <;> simp_all [ovr]

theorem updateChannel_category (c : ChannelRec) (e : XmlElem) :
    (updateChannel c e).category
      = if e.tag = "category" then some ((c.category.getD []) ++ [stripOrNone e.text])
        else c.category := by
  unfold updateChannel
  split_ifs <;> simp_all

theorem updateChannel_managingEditor (c : ChannelRec) (e : XmlElem) :
    (updateChannel c e).managingEditor
      = ovr c.managingEditor (if e.tag = "managingEditor" then some e.text else none) := by
  unfold updateChannel
  split_ifs <;> simp_all [ovr]

theorem updateChannel_description (c : ChannelRec) (e : XmlElem) :
    (updateChannel c e).description
      = ovr c.description (if e.tag = "description" then some e.text else none) := by
  unfold updateChannel
  split_ifs <;> simp_all [ovr]

theorem updateItem_title (d : ItemRec) (e : XmlElem) :
    (updateItem d e).title
      = ovr d.title (if e.tag = "title" then some e.text else none) := by
  unfold updateItem
  split_ifs <;> simp_all [ovr]

theorem updateItem_author (d : ItemRec) (e : XmlElem) :
    (updateItem d e).author
      = ovr d.author (if e.tag = "author" then some e.text else none) := by
  unfold updateItem
  split_ifs <;> simp_all [ovr]

theorem updateItem_pubDate (d : ItemRec) (e : XmlElem) :
    (updateItem d e).pubDate
      = ovr d.pubDate (if e.tag = "pubDate" then some e.text else none) := by
  unfold updateItem
  split_ifs <;> simp_all [ovr]

theorem updateItem_link (d : ItemRec) (e : XmlElem) :
    (updateItem d e).link
      = ovr d.link (if e.tag = "link" then some e.text else none) := by
  unfold updateItem
  split_ifs <;> simp_all [ovr]

theorem updateItem_category (d : ItemRec) (e : XmlElem) :
    (updateItem d e).category
      = if e.tag = "category" then some ((d.category.getD []) ++ [stripOrNone e.text])
        else d.category := by
  unfold updateItem
  split_ifs <;> simp_all

theorem updateItem_description (d : ItemRec) (e : XmlElem) :
    (updateItem d e).description
      = ovr d.description (if e.tag = "description" then some e.text else none) := by
  unfold updateItem
  split_ifs <;> simp_all [ovr]

/-- The channel record after folding a suffix of children over an
arbitrary accumulator. -/
def chanStep (c : ChannelRec) (es : List XmlElem) : ChannelRec :=
  { title := ovr c.title (lastTagText es "title"),
    link := ovr c.link (lastTagText es "link"),
    lastBuildDate := ovr c.lastBuildDate (lastTagText es "lastBuildDate"),
    pubDate := ovr c.pubDate (lastTagText es "pudDate"),
    language := ovr c.language (lastTagText es "language"),
    category := if catSeq es = [] then c.category
                else some ((c.category.getD []) ++ catSeq es),
    managingEditor := ovr c.managingEditor (lastTagText es "managingEditor"),
    description := ovr c.description (lastTagText es "description") }

theorem foldl_updateChannel (es : List XmlElem) (c : ChannelRec) :
    es.foldl updateChannel c = chanStep c es := by
  induction es generalizing c with
  | nil => rfl
  | cons e es ih =>
    rw [List.foldl_cons, ih]
    simp only [chanStep, lastTagText_cons, catSeq_cons,
      updateChannel_title, updateChannel_link, updateChannel_lastBuildDate,
      updateChannel_pubDate, updateChannel_language, updateChannel_category,
      updateChannel_managingEditor, updateChannel_description,
      ovr_assoc, ChannelRec.mk.injEq, true_and, and_true]
    by_cases h : e.tag = "category" <;> by_cases h2 : catSeq es = [] <;>
      simp [h, h2, List.append_assoc]

/-- The item record after folding a suffix of children over an arbitrary
accumulator. -/
def itemStep (d : ItemRec) (es : List XmlElem) : ItemRec :=
  { title := ovr d.title (lastTagText es "title"),
    author := ovr d.author (lastTagText es "author"),
    pubDate := ovr d.pubDate (lastTagText es "pubDate"),
    link := ovr d.link (lastTagText es "link"),
    category := if catSeq es = [] then d.category
                else some ((d.category.getD []) ++ catSeq es),
    description := ovr d.description (lastTagText es "description") }

theorem foldl_updateItem (es : List XmlElem) (d : ItemRec) :
    es.foldl updateItem d = itemStep d es := by
  induction es generalizing d with
  | nil => rfl
  | cons e es ih =>
    rw [List.foldl_cons, ih]
    simp only [itemStep, lastTagText_cons, catSeq_cons,
      updateItem_title, updateItem_author, updateItem_pubDate,
      updateItem_link, updateItem_category, updateItem_description,
      ovr_assoc, ItemRec.mk.injEq, true_and, and_true]
    by_cases h : e.tag = "category" <;> by_cases h2 : catSeq es = [] <;>
      simp [h, h2, List.append_assoc]

theorem mapM_eq_none_of_mem {α β : Type} (f : α → Option β) (l : List α) (x : α)
    (hx : x ∈ l) (hf : f x = none) : l.mapM f = none := by
  induction l with
  | nil => cases hx
  | cons a m ih =>
    rw [List.mapM_cons]
    rcases List.mem_cons.mp hx with rfl | hm
    · rw [hf]; rfl
    · cases hfa : f a with
      | none => rfl
      | some v => rw [ih hm]; rfl

theorem mapM_id_all_isSome (cs : List (Option String)) (h : ∀ x ∈ cs, x.isSome) :
    cs.mapM id = some (cs.map (fun o => o.getD "")) := by
  induction cs with
  | nil => rfl
  | cons a m ih =>
    rcases a with _ | v
    · exact absurd (h none (List.mem_cons_self none m)) (by simp)
    · rw [List.mapM_cons, ih (fun x hx => h x (List.mem_cons_of_mem _ hx))]
      rfl

/-- C5: for every run of the per-element extraction loop (channel or
item), each recognised non-category field holds the text of the last
same-tag direct child, every category child appends its trimmed-or-null
text in document order, and a field is present in the record exactly when
its tag occurred at least once. -/
theorem C5_extraction_rules (es : List XmlElem) :
    es.foldl updateChannel {} = channelSpec es
    ∧ es.foldl updateItem {} = itemSpec es := by
  constructor
  · rw [foldl_updateChannel]
    simp only [chanStep, channelSpec]
    by_cases h : catSeq es = [] <;> simp [h, ovr_none_left]
  · rw [foldl_updateItem]
    simp only [itemStep, itemSpec]
    by_cases h : catSeq es = [] <;> simp [h, ovr_none_left]

/-- C3: the channel record's pubDate field is populated from a direct
child whose tag is literally "pudDate"; a channel child tagged "pubDate"
leaves the channel record unchanged; item extraction reads pubDate from
the tag "pubDate". -/
theorem C3_pudDate_mismatch (c : ChannelRec) (d : ItemRec) (e : XmlElem) :
    (e.tag = "pudDate" → updateChannel c e = { c with pubDate := some e.text })
    ∧ (e.tag = "pubDate" → updateChannel c e = c)
    ∧ (e.tag = "pubDate" → updateItem d e = { d with pubDate := some e.text }) := by
  refine ⟨fun h => ?_, fun h => ?_, fun h => ?_⟩ <;>
    simp [updateChannel, updateItem, h]

/-- C3 witness: concrete elements exercising each of the three parts. -/
theorem C3_pudDate_mismatch_witness :
    updateChannel {} (XmlElem.mk "pudDate" (some "d1") [])
      = { pubDate := some (some "d1") }
    ∧ updateChannel {} (XmlElem.mk "pubDate" (some "d2") []) = {}
    ∧ updateItem {} (XmlElem.mk "pubDate" (some "d2") [])
      = { pubDate := some (some "d2") } :=
  ⟨(C3_pudDate_mismatch {} {} (XmlElem.mk "pudDate" (some "d1") [])).1 rfl,
   (C3_pudDate_mismatch {} {} (XmlElem.mk "pubDate" (some "d2") [])).2.1 rfl,
   (C3_pudDate_mismatch {} {} (XmlElem.mk "pubDate" (some "d2") [])).2.2 rfl⟩

/-- C1: with a positive limit L smaller than the item count, exactly the
first L items are selected, in order, and this is the item list JSON mode
puts under `items` (text mode iterates the same selection); a limit of 0
or no limit selects all items. -/
theorem C1_limit_selection (items : List ItemRec) (L : Int)
    (hpos : 0 < L) (hlt : L < items.length) :
    selectItems items (some L) = items.take L.toNat
    ∧ (selectItems items (some L)).length = L.toNat
    ∧ (∀ c d, mkJsonData c items (some L) = some d → d.items = items.take L.toNat)
    ∧ selectItems items none = items
    ∧ selectItems items (some 0) = items := by
  have hne : L ≠ 0 := hpos.ne'
  have h0 : (0:Int) ≤ L := hpos.le
  have hsel : selectItems items (some L) = items.take L.toNat := by
    simp [selectItems, pySliceTo, hne, h0]
  refine ⟨hsel, ?_, ?_, rfl, by simp [selectItems]⟩
  · rw [hsel, List.length_take]
    omega
  · intro c d hd
    obtain ⟨a, -, rfl⟩ := Option.map_eq_some'.mp hd
    exact hsel

/-- C1 witness: two items, limit 1. -/
theorem C1_limit_selection_witness :
    ((0:Int) < 1 ∧ (1:Int) < ([{}, {}] : List ItemRec).length)
    ∧ (selectItems ([{}, {}] : List ItemRec) (some 1)
        = ([{}, {}] : List ItemRec).take (Int.toNat 1)
      ∧ (selectItems ([{}, {}] : List ItemRec) (some 1)).length = Int.toNat 1
      ∧ (∀ c d, mkJsonData c ([{}, {}] : List ItemRec) (some 1) = some d →
          d.items = ([{}, {}] : List ItemRec).take (Int.toNat 1))
      ∧ selectItems ([{}, {}] : List ItemRec) none = [{}, {}]
      ∧ selectItems ([{}, {}] : List ItemRec) (some 0) = [{}, {}]) :=
  ⟨⟨by decide, by decide⟩, C1_limit_selection [{}, {}] 1 (by decide) (by decide)⟩

/-- C8: a negative limit L is not rejected: the selection is the Python
slice items[:L], i.e. all items except the last |L|, and that is what
JSON mode puts under `items` (text mode iterates the same selection). -/
theorem C8_negative_limit (items : List ItemRec) (L : Int) (hneg : L < 0) :
    selectItems items (some L) = items.take (items.length - L.natAbs)
    ∧ (∀ c d, mkJsonData c items (some L) = some d →
        d.items = items.take (items.length - L.natAbs)) := by
  have hne : L ≠ 0 := hneg.ne
  have hnot : ¬ (0:Int) ≤ L := by omega
  have hsel : selectItems items (some L)
      = items.take (items.length - L.natAbs) := by
    simp only [selectItems, pySliceTo, if_neg hne, if_neg hnot]
    congr 1
    omega
  refine ⟨hsel, fun c d hd => ?_⟩
  obtain ⟨a, -, rfl⟩ := Option.map_eq_some'.mp hd
  exact hsel

/-- C8 witness: three items, limit -1 keeps the first two. -/
theorem C8_negative_limit_witness :
    ((-1:Int) < 0)
    ∧ (selectItems ([{}, {}, {}] : List ItemRec) (some (-1))
        = ([{}, {}, {}] : List ItemRec).take
            (([{}, {}, {}] : List ItemRec).length - Int.natAbs (-1))
      ∧ (∀ c d, mkJsonData c ([{}, {}, {}] : List ItemRec) (some (-1)) = some d →
          d.items = ([{}, {}, {}] : List ItemRec).take
            (([{}, {}, {}] : List ItemRec).length - Int.natAbs (-1)))) :=
  ⟨by decide, C8_negative_limit [{}, {}, {}] (-1) (by decide)⟩

/-- C6: the parse fails when the XML is malformed (no tree), and when the
tree has no channel child to iterate; when a channel child exists,
extraction itself succeeds (the extracted item list is total by
construction). -/
theorem C6_failure_conditions (limit : Option Int) (json : Bool) :
    rssParse none limit json = none
    ∧ (∀ tree, findChild tree "channel" = none → rssParse (some tree) limit json = none)
    ∧ (∀ tree, (findChild tree "channel").isSome → (extractChannel tree).isSome) := by
  refine ⟨rfl, fun tree h => ?_, fun tree h => ?_⟩
  · simp [rssParse, extractChannel, h]
  · rcases hf : findChild tree "channel" with _ | ch
    · rw [hf] at h; cases h
    · simp [extractChannel, hf]

/-- C6 witness: a channel-less document fails, a document with a channel
child extracts. -/
theorem C6_failure_conditions_witness :
    rssParse none none false = none
    ∧ rssParse (some (XmlElem.mk "rss" none [XmlElem.mk "title" none []])) none false = none
    ∧ (extractChannel (XmlElem.mk "rss" none [XmlElem.mk "channel" none []])).isSome :=
  ⟨(C6_failure_conditions none false).1,
   (C6_failure_conditions none false).2.1 _ rfl,
   (C6_failure_conditions none false).2.2 _ (by decide)⟩

/-- C7: the worked example from the spec: title/link plus two items, with
limit 1 in text mode, yields exactly the six stated lines (blank lines
are the single-space lines the code appends) and nothing for item B. -/
theorem C7_worked_example :
    rssParse (some (XmlElem.mk "rss" none [XmlElem.mk "channel" none
      [XmlElem.mk "title" (some "Example") [], XmlElem.mk "link" (some "http://x") [],
       XmlElem.mk "item" none [XmlElem.mk "title" (some "A") []],
       XmlElem.mk "item" none [XmlElem.mk "title" (some "B") []]]]))
      (some 1) false
    = some (RssOutput.textOut [some "Feed: Example", some "Link: http://x",
        some " ", some "Title: A", some " ", some " "]) := rfl

theorem find_eq_head_filter {α : Type} (p : α → Bool) (l : List α) :
    l.find? p = (l.filter p).head? := by
  induction l with
  | nil => rfl
  | cons a m ih =>
    by_cases h : p a
    · rw [List.find?_cons_of_pos _ h, List.filter_cons_of_pos h, List.head?_cons]
    · rw [List.find?_cons_of_neg _ h, List.filter_cons_of_neg h, ih]

/-- C10: in every document whose root has more than one channel child
(any number of channels, any interleaved non-channel siblings), the
channel record is built from the first channel's children only, while
the item list accumulates the item children of the first and of every
later channel, in document order. -/
theorem C10_multi_channel (tree : XmlElem)
    (hs : 1 < (tree.children.filter (fun c => c.tag = "channel")).length) :
    ∃ ch1 rest, tree.children.filter (fun c => c.tag = "channel") = ch1 :: rest
      ∧ rest ≠ []
      ∧ extractChannel tree = some (ch1.children.foldl updateChannel {})
      ∧ extractItems tree
          = (ch1.children.filter (fun el => el.tag = "item")).map
              (fun itm => itm.children.foldl updateItem {})
            ++ (rest.flatMap
                  (fun ch => ch.children.filter (fun el => el.tag = "item"))).map
              (fun itm => itm.children.foldl updateItem {}) := by
  rcases hf : tree.children.filter (fun c => c.tag = "channel") with _ | ⟨ch1, rest⟩
  · rw [hf] at hs
    simp at hs
  · refine ⟨ch1, rest, hf, ?_, ?_, ?_⟩
    · rintro rfl
      rw [hf] at hs
      simp at hs
    · unfold extractChannel findChild
      rw [find_eq_head_filter, hf]
      rfl
    · unfold extractItems
      rw [hf]
      simp [List.flatMap_cons, List.map_append]

/-- C10 witness: three channels with non-channel siblings interleaved;
the record comes from the first channel, the items from all three. -/
theorem C10_multi_channel_witness :
    (1 < ((XmlElem.mk "rss" none
        [XmlElem.mk "junk" none [],
         XmlElem.mk "channel" none [XmlElem.mk "title" (some "one") [],
           XmlElem.mk "item" none []],
         XmlElem.mk "other" none [],
         XmlElem.mk "channel" none [XmlElem.mk "item" none
           [XmlElem.mk "title" (some "i2") []]],
         XmlElem.mk "channel" none [XmlElem.mk "item" none []]]).children.filter
        (fun c => c.tag = "channel")).length)
    ∧ ∃ ch1 rest, ((XmlElem.mk "rss" none
        [XmlElem.mk "junk" none [],
         XmlElem.mk "channel" none [XmlElem.mk "title" (some "one") [],
           XmlElem.mk "item" none []],
         XmlElem.mk "other" none [],
         XmlElem.mk "channel" none [XmlElem.mk "item" none
           [XmlElem.mk "title" (some "i2") []]],
         XmlElem.mk "channel" none [XmlElem.mk "item" none []]]).children.filter
        (fun c => c.tag = "channel")) = ch1 :: rest
      ∧ rest ≠ []
      ∧ extractChannel (XmlElem.mk "rss" none
          [XmlElem.mk "junk" none [],
           XmlElem.mk "channel" none [XmlElem.mk "title" (some "one") [],
             XmlElem.mk "item" none []],
           XmlElem.mk "other" none [],
           XmlElem.mk "channel" none [XmlElem.mk "item" none
             [XmlElem.mk "title" (some "i2") []]],
           XmlElem.mk "channel" none [XmlElem.mk "item" none []]])
          = some (ch1.children.foldl updateChannel {})
      ∧ extractItems (XmlElem.mk "rss" none
          [XmlElem.mk "junk" none [],
           XmlElem.mk "channel" none [XmlElem.mk "title" (some "one") [],
             XmlElem.mk "item" none []],
           XmlElem.mk "other" none [],
           XmlElem.mk "channel" none [XmlElem.mk "item" none
             [XmlElem.mk "title" (some "i2") []]],
           XmlElem.mk "channel" none [XmlElem.mk "item" none []]])
          = (ch1.children.filter (fun el => el.tag = "item")).map
              (fun itm => itm.children.foldl updateItem {})
            ++ (rest.flatMap
                  (fun ch => ch.children.filter (fun el => el.tag = "item"))).map
              (fun itm => itm.children.foldl updateItem {}) :=
  ⟨by decide,
   C10_multi_channel (XmlElem.mk "rss" none
      [XmlElem.mk "junk" none [],
       XmlElem.mk "channel" none [XmlElem.mk "title" (some "one") [],
         XmlElem.mk "item" none []],
       XmlElem.mk "other" none [],
       XmlElem.mk "channel" none [XmlElem.mk "item" none
         [XmlElem.mk "title" (some "i2") []]],
       XmlElem.mk "channel" none [XmlElem.mk "item" none []]]) (by decide)⟩

/-- C2 counterexample: a channel whose category sequence is the non-empty
list [null] (from a text-less category child): JSON mode fails at the
delimiter-free join instead of producing a top-level category value. -/
theorem C2_counterexample :
    rssParse (some (XmlElem.mk "rss" none [XmlElem.mk "channel" none
      [XmlElem.mk "category" none []]])) none true = none := rfl

/-- C2 amended: for a channel with a non-empty category sequence, text
mode renders the Python default stringification of the list; JSON mode
produces the delimiter-free concatenation when every element is non-null,
and fails (TypeError in the join) when some element is null. -/
theorem C2_category_rendering (c : ChannelRec) (cs : List (Option String))
    (hcat : c.category = some cs) (_hne : cs ≠ []) :
    ("Categories: " ++ pyReprList cs) ∈ channelOptLines c
    ∧ ((∀ x ∈ cs, x.isSome) → ∀ items limit,
        ∃ d, mkJsonData c items limit = some d
          ∧ d.category = some (String.join (cs.map (fun o => o.getD ""))))
    ∧ (none ∈ cs → ∀ items limit, mkJsonData c items limit = none) := by
  refine ⟨?_, fun hall items limit => ?_, fun hnone items limit => ?_⟩
  · simp [channelOptLines, hcat]
  · simp only [mkJsonData, hcat]
    rw [mapM_id_all_isSome cs hall]
    exact ⟨_, rfl, rfl⟩
  · simp only [mkJsonData, hcat]
    rw [mapM_eq_none_of_mem id cs none hnone rfl]
    rfl

/-- C2 witness: two non-null categories concatenate to "ab" in JSON mode
and stringify as a list in text mode. -/
theorem C2_category_rendering_witness :
    (({ category := some [some "a", some "b"] } : ChannelRec).category
        = some [some "a", some "b"]
     ∧ ([some "a", some "b"] : List (Option String)) ≠ [])
    ∧ ("Categories: " ++ pyReprList [some "a", some "b"])
        ∈ channelOptLines { category := some [some "a", some "b"] }
    ∧ (∃ d, mkJsonData { category := some [some "a", some "b"] } [] none = some d
        ∧ d.category = some (String.join
            (([some "a", some "b"] : List (Option String)).map (fun o => o.getD "")))) :=
  ⟨⟨rfl, by decide⟩,
   (C2_category_rendering { category := some [some "a", some "b"] }
     [some "a", some "b"] rfl (by decide)).1,
   (C2_category_rendering { category := some [some "a", some "b"] }
     [some "a", some "b"] rfl (by decide)).2.1 (by decide) [] none⟩

/-- C4 counterexample: a channel record missing title (and link) whose
category list holds a null: JSON mode fails too (at the join), so JSON
rendering does not succeed for every channel missing title or link. -/
theorem C4_counterexample :
    ({ category := some [none] } : ChannelRec).title = none
    ∧ mkJsonData { category := some [none] } [] none = none := ⟨rfl, rfl⟩

/-- C4 amended: for a channel record missing title or link, text mode
always fails; JSON mode succeeds provided the channel's category
sequence, when present, holds no null element (title and link are only
conditionally included there). -/
theorem C4_missing_title_link (c : ChannelRec) (items : List ItemRec)
    (limit : Option Int) (h : c.title = none ∨ c.link = none)
    (hcat : ∀ cs, c.category = some cs → ∀ x ∈ cs, x.isSome) :
    renderText c items limit = none ∧ (mkJsonData c items limit).isSome := by
  constructor
  · rcases h with h | h
    · simp [renderText, h]
    · cases ht : c.title <;> simp [renderText, h, ht]
  · rcases hc : c.category with _ | cs
    · simp [mkJsonData, hc]
    · simp only [mkJsonData, hc]
      rw [mapM_id_all_isSome cs (hcat cs hc)]
      rfl

/-- C4 witness: a channel holding only a language field. -/
theorem C4_missing_title_link_witness :
    (({ language := some (some "en") } : ChannelRec).title = none
      ∨ ({ language := some (some "en") } : ChannelRec).link = none)
    ∧ (∀ cs, ({ language := some (some "en") } : ChannelRec).category = some cs →
        ∀ x ∈ cs, x.isSome)
    ∧ (renderText { language := some (some "en") } [] none = none
      ∧ (mkJsonData { language := some (some "en") } [] none).isSome) :=
  ⟨Or.inl rfl, fun _ hcs => Option.noConfusion hcs,
   C4_missing_title_link { language := some (some "en") } [] none (Or.inl rfl)
     (fun _ hcs => Option.noConfusion hcs)⟩

/-- C9: when a selected item's category list holds a null element, the
item's block fails at the comma join and the whole text render fails; an
item carrying a category field renders only when every element of that
list is non-null. -/
theorem C9_null_item_category (it : ItemRec) (cs : List (Option String))
    (hcat : it.category = some cs) :
    (none ∈ cs → renderItemLines it = none
      ∧ ∀ c items limit, it ∈ selectItems items limit →
          renderText c items limit = none)
    ∧ ((renderItemLines it).isSome → ∀ x ∈ cs, x.isSome) := by
  have hfail : none ∈ cs → renderItemLines it = none := by
    intro hnone
    have hjoin : commaJoin cs = none := by
      unfold commaJoin
      rw [mapM_eq_none_of_mem id cs none hnone rfl]
      rfl
    cases ht : it.title <;> simp [renderItemLines, hcat, hjoin, ht]
  refine ⟨fun hnone => ⟨hfail hnone, fun c items limit hmem => ?_⟩,
    fun hs x hx => ?_⟩
  · have hm : (selectItems items limit).mapM renderItemLines = none :=
      mapM_eq_none_of_mem _ _ _ hmem (hfail hnone)
    have hm2 : List.mapM.loop renderItemLines (selectItems items limit) [] = none := hm
    cases ht : c.title <;> cases hl : c.link <;>
      simp [renderText, ht, hl, hm, hm2]
  · by_contra hns
    rw [Option.not_isSome_iff_eq_none] at hns
    subst hns
    rw [hfail hx] at hs
    cases hs

/-- C9 witness: an item with title present and category [null] aborts the
text render even under a channel with title and link. -/
theorem C9_null_item_category_witness :
    ({ title := some (some "T"), category := some [none] } : ItemRec).category
      = some [none]
    ∧ renderItemLines { title := some (some "T"), category := some [none] } = none
    ∧ renderText { title := some (some "F"), link := some (some "L") }
        [{ title := some (some "T"), category := some [none] }] none = none :=
  ⟨rfl,
   ((C9_null_item_category { title := some (some "T"), category := some [none] }
      [none] rfl).1 (by decide)).1,
   ((C9_null_item_category { title := some (some "T"), category := some [none] }
      [none] rfl).1 (by decide)).2
     { title := some (some "F"), link := some (some "L") }
     [{ title := some (some "T"), category := some [none] }] none (by decide)⟩
